import Mathlib

/-!
Shallow embedding of the Barotrauma reactor simulator
(src/reactor.rs, src/controller.rs, src/main.rs) over exact rational
arithmetic (`ℚ` stands in for `f32`), together with theorems settling
the specification claims.
-/

set_option autoImplicit false

namespace BarotraumaReactor

/-! ### f32 primitives used by the source -/

namespace F32

/-- Rust `f32::clamp(lo, hi)` on finite values: `min (max x lo) hi`. -/
def clamp (x lo hi : ℚ) : ℚ := min (max x lo) hi

/-- Rust `f32::signum` on finite values: `1.0` for positive or `+0.0`
(the zero produced by ordinary subtraction), `-1.0` for negative. -/
def signum (x : ℚ) : ℚ := if x < 0 then -1 else 1

end F32

/-! ### Input (src/reactor.rs lines 5-44) -/

/-- `struct Input` — the mutable control surface. -/
structure Input where
  fission_rate : ℚ
  turbine_rate : ℚ
  load : ℚ
deriving DecidableEq, Repr

/-- `Input::new`. -/
def Input.new : Input :=
  { fission_rate := 0, turbine_rate := 0, load := 0 }

/-- `Input::set_fission_rate`. -/
def Input.set_fission_rate (i : Input) (fission_rate : ℚ) : Input :=
  { i with fission_rate := F32.clamp fission_rate 0 100 }

/-- `Input::get_fission_rate`. -/
def Input.get_fission_rate (i : Input) : ℚ := i.fission_rate

/-- `Input::set_turbine_rate`. -/
def Input.set_turbine_rate (i : Input) (turbine_rate : ℚ) : Input :=
  { i with turbine_rate := F32.clamp turbine_rate 0 100 }

/-- `Input::get_turbine_rate`. -/
def Input.get_turbine_rate (i : Input) : ℚ := i.turbine_rate

/-- `Input::set_load`. -/
def Input.set_load (i : Input) (load : ℚ) : Input :=
  { i with load := F32.clamp load 0 100 }

/-- `Input::get_load`. -/
def Input.get_load (i : Input) : ℚ := i.load

/-! ### Output (src/reactor.rs lines 46-93) -/

/-- `struct Output` — the read-only per-tick snapshot. -/
structure Output where
  temperature : ℚ
  load : ℚ
  power : ℚ
  fuel_potential : ℚ
  fission_rate : ℚ
  turbine_rate : ℚ
deriving DecidableEq, Repr

/-- `Output::new`. -/
def Output.new : Output :=
  { temperature := 0, load := 0, power := 0, fuel_potential := 0,
    fission_rate := 0, turbine_rate := 0 }

/-! ### Core and Turbine sub-models (src/reactor.rs lines 153-201) -/

/-- `struct Core`. -/
structure Core where
  value : ℚ
  target : ℚ
deriving DecidableEq, Repr

/-- `Core::new`. -/
def Core.new : Core := { value := 0, target := 0 }

/-- `Core::update(new_target, time_delta)`: rate-limited target tracking,
then first-order relaxation of `value` toward `min target 320`, then a
clamp of `value` to [0,100]. -/
def Core.update (c : Core) (new_target time_delta : ℚ) : Core :=
  let target :=
    if c.target ≥ new_target then
      max (c.target - time_delta * 5) new_target
    else
      min (c.target + time_delta * 5) new_target
  let heat_potential : ℚ := 320
  let value := c.value + (min target heat_potential - c.value) * time_delta
  { value := F32.clamp value 0 100, target := target }

/-- `struct Turbine`. -/
structure Turbine where
  value : ℚ
  target : ℚ
deriving DecidableEq, Repr

/-- `Turbine::new`. -/
def Turbine.new : Turbine := { value := 0, target := 0 }

/-- `Turbine::update(new_target, time_delta)`: rate-limited target
tracking, then first-order relaxation of `value` toward `target`, then a
clamp of `value` to [0,100]. -/
def Turbine.update (t : Turbine) (new_target time_delta : ℚ) : Turbine :=
  let target :=
    if t.target ≥ new_target then
      max (t.target - time_delta * 5) new_target
    else
      min (t.target + time_delta * 5) new_target
  let value := t.value + (target - t.value) * time_delta
  { value := F32.clamp value 0 100, target := target }

/-! ### Reactor aggregate (src/reactor.rs lines 95-151 and 203-266) -/

/-- `struct Reactor`. -/
structure Reactor where
  fuel_potential : ℚ
  power_max : ℚ
  turbine : Turbine
  core : Core
  load : ℚ
  input : Input
  temperature : ℚ
  output : Output
deriving DecidableEq, Repr

/-- `Reactor::new(fuel_potential, power_max)`. -/
def Reactor.new (fuel_potential power_max : ℚ) : Reactor :=
  { input := Input.new, core := Core.new, turbine := Turbine.new,
    power_max := power_max, fuel_potential := fuel_potential,
    load := 0, temperature := 0, output := Output.new }

/-- `Reactor::heat_demand`. -/
def Reactor.heat_demand (r : Reactor) : ℚ := r.turbine.value * 75

/-- `Reactor::heat_supply`. -/
def Reactor.heat_supply (r : Reactor) : ℚ := 2 * r.core.value * r.fuel_potential

/-- `Reactor::get_temperature`. -/
def Reactor.get_temperature (r : Reactor) : ℚ := r.temperature

/-- `Reactor::get_fission_rate`. -/
def Reactor.get_fission_rate (r : Reactor) : ℚ := r.core.value

/-- `Reactor::get_turbine_rate`. -/
def Reactor.get_turbine_rate (r : Reactor) : ℚ := r.turbine.value

/-- `Reactor::get_power`. -/
def Reactor.get_power (r : Reactor) : ℚ := r.turbine.value * r.power_max / 100

/-- `Reactor::set_fission_rate` (writes into the owned `Input`). -/
def Reactor.set_fission_rate (r : Reactor) (fission_rate : ℚ) : Reactor :=
  { r with input := { r.input with fission_rate := F32.clamp fission_rate 0 100 } }

/-- `Reactor::set_turbine_rate` (writes into the owned `Input`). -/
def Reactor.set_turbine_rate (r : Reactor) (turbine_rate : ℚ) : Reactor :=
  { r with input := { r.input with turbine_rate := F32.clamp turbine_rate 0 100 } }

/-- `Reactor::set_load`: stores `load.max(0.0)` into the Reactor's own
`load` field (not into `Input`), with no upper clamp. -/
def Reactor.set_load (r : Reactor) (load : ℚ) : Reactor :=
  { r with load := max load 0 }

/-- `Reactor::update_temperatur(time_delta)` (src/reactor.rs lines
220-229): rate-limited pursuit of the supply/demand gap, clamp to
[0,10000], and echo of the temperature into `output`. -/
def Reactor.update_temperatur (r : Reactor) (time_delta : ℚ) : Reactor :=
  let heat_supply := r.heat_supply
  let temperatur_delta := (heat_supply - r.turbine.value * 100) - r.temperature
  let temperature :=
    r.temperature +
      F32.clamp (F32.signum temperatur_delta * 1000 * time_delta)
        (-|temperatur_delta|) |temperatur_delta|
  let temperature := F32.clamp temperature 0 10000
  { r with temperature := temperature,
           output := { r.output with temperature := temperature } }

/-- `Reactor::update(time_delta)` (src/reactor.rs lines 204-218):
temperature update, then core, then turbine, then the output refresh. -/
def Reactor.update (r : Reactor) (time_delta : ℚ) : Reactor :=
  let r := r.update_temperatur time_delta
  let r := { r with core := r.core.update r.input.fission_rate time_delta }
  let r := { r with turbine := r.turbine.update r.input.turbine_rate time_delta }
  { r with output :=
      { r.output with
        fuel_potential := r.fuel_potential,
        fission_rate := r.get_fission_rate,
        load := r.input.get_load,
        turbine_rate := r.get_turbine_rate } }

/-! ### Controllers (src/controller.rs)

A Rust `Controller` owns internal state of some type `σ`, reads the
`Output` and mutates the `Input` in place.  We embed `update` as a pure
function returning the new controller state together with the mutated
`Input`. -/

/-- The `Controller` trait: `update(&mut self, output, input)` as a pure
state transformer. -/
def ControllerFn (σ : Type) : Type := σ → Output → Input → σ × Input

/-- `impl Controller for ()`: the empty composition, a no-op. -/
def unitController : ControllerFn Unit :=
  fun s _output input => (s, input)

/-- `impl_controller_tupple!(0 A, 1 B)`: the pair composition.  Member 0
runs first, then member 1 on the same `Output` and on the `Input` as
member 0 left it. -/
def tupleController {α β : Type} (a : ControllerFn α) (b : ControllerFn β) :
    ControllerFn (α × β) :=
  fun s output input =>
    let ra := a s.1 output input
    let rb := b s.2 output ra.2
    ((ra.1, rb.1), rb.2)

/-! ### Simulation driver (src/main.rs lines 150-179) -/

/-- `struct Simulation<C>` with controller state of type `σ`. -/
structure Simulation (σ : Type) where
  ticks : ℕ
  reactor : Reactor
  controller : σ

/-- `Simulation::new(duration, reactor, controller)`:
`ticks = duration.as_secs() * 60`. -/
def Simulation.new {σ : Type} (duration_secs : ℕ) (reactor : Reactor)
    (controller : σ) : Simulation σ :=
  { ticks := duration_secs * 60, reactor := reactor, controller := controller }

/-- The body of `Simulation::run`'s `for` loop, iterated over the
remaining tick count: `controls()` hands the controller the reactor's
`Input`/`Output` pair, the controller mutates the `Input`, then the
reactor advances by `dt = 1.0 / 60.0`. -/
def runLoop {σ : Type} (c : ControllerFn σ) : ℕ → Reactor → σ → Reactor × σ
  | 0, r, s => (r, s)
  | n + 1, r, s =>
    let res := c s r.output r.input
    let r := { r with input := res.2 }
    let r := r.update (1 / 60)
    runLoop c n r res.1

/-- `Simulation::run`: executes the loop for `ticks` iterations and
returns the controller. -/
def Simulation.run {σ : Type} (sim : Simulation σ) (c : ControllerFn σ) : σ :=
  (runLoop c sim.ticks sim.reactor sim.controller).2

/-! ### Spec-side definitions

The following definitions are written from the words of the
specification (not from the source) to state refinement claims; each is
compared with the source-derived definitions above. -/

/-- Spec step 1: recompute temperature from the current (pre-update)
Core/Turbine values: `heat_supply = 2 * core.value * fuel_potential`;
`delta = (heat_supply - turbine.value*100) - temperature`;
`temperature += clamp(sign(delta)*1000*dt, -|delta|, |delta|)`; clamp
temperature to [0,10000]. -/
def specTemperatureStep (r : Reactor) (dt : ℚ) : Reactor :=
  let heat_supply := 2 * r.core.value * r.fuel_potential
  let delta := (heat_supply - r.turbine.value * 100) - r.temperature
  let temperature := r.temperature + F32.clamp (F32.signum delta * 1000 * dt) (-|delta|) |delta|
  { r with temperature := F32.clamp temperature 0 10000 }

/-- Spec steps 2-4 after the temperature step: advance Core toward
`input.fission_rate`, advance Turbine toward `input.turbine_rate`, then
refresh Output's echoed fields (temperature, fuel potential, actual
fission/turbine rate, load) from current state. -/
def specReactorUpdate (r : Reactor) (dt : ℚ) : Reactor :=
  let r := specTemperatureStep r dt
  let r := { r with core := r.core.update r.input.fission_rate dt }
  let r := { r with turbine := r.turbine.update r.input.turbine_rate dt }
  { r with output :=
      { r.output with
        temperature := r.temperature,
        load := r.input.load,
        fuel_potential := r.fuel_potential,
        fission_rate := r.core.value,
        turbine_rate := r.turbine.value } }

/-- Spec-side description of one simulation iteration: obtain the
reactor's current (Input, Output) pair, invoke the controller's update,
then advance the reactor by `dt = 1/tick_rate` with the tick rate fixed
at 60. -/
def specTick {σ : Type} (c : ControllerFn σ) (p : Reactor × σ) : Reactor × σ :=
  let res := c p.2 p.1.output p.1.input
  (({ p.1 with input := res.2 } : Reactor).update (1 / 60), res.1)

/-! ### Basic lemmas about the f32 primitives -/

lemma F32.clamp_le (x lo hi : ℚ) : F32.clamp x lo hi ≤ hi :=
  min_le_right _ _

lemma F32.le_clamp {lo hi : ℚ} (x : ℚ) (h : lo ≤ hi) : lo ≤ F32.clamp x lo hi :=
  le_min (le_max_right _ _) h

lemma F32.abs_clamp_le {a : ℚ} (x : ℚ) (ha : 0 ≤ a) :
    |F32.clamp x (-a) a| ≤ a :=
  abs_le.mpr ⟨F32.le_clamp x (by linarith), F32.clamp_le x (-a) a⟩

/-! ### Projection lemmas for the source-derived update functions -/

lemma core_update_target (c : Core) (nt dt : ℚ) :
    (c.update nt dt).target =
      if c.target ≥ nt then max (c.target - dt * 5) nt
      else min (c.target + dt * 5) nt := rfl

lemma core_update_value (c : Core) (nt dt : ℚ) :
    (c.update nt dt).value =
      F32.clamp (c.value + (min (c.update nt dt).target 320 - c.value) * dt) 0 100 := rfl

lemma turbine_update_target (t : Turbine) (nt dt : ℚ) :
    (t.update nt dt).target =
      if t.target ≥ nt then max (t.target - dt * 5) nt
      else min (t.target + dt * 5) nt := rfl

lemma turbine_update_value (t : Turbine) (nt dt : ℚ) :
    (t.update nt dt).value =
      F32.clamp (t.value + ((t.update nt dt).target - t.value) * dt) 0 100 := rfl

lemma Reactor.update_input (r : Reactor) (dt : ℚ) : (r.update dt).input = r.input := rfl

lemma Reactor.update_core (r : Reactor) (dt : ℚ) :
    (r.update dt).core = r.core.update r.input.fission_rate dt := rfl

lemma Reactor.update_turbine (r : Reactor) (dt : ℚ) :
    (r.update dt).turbine = r.turbine.update r.input.turbine_rate dt := rfl

lemma Reactor.update_temperature (r : Reactor) (dt : ℚ) :
    (r.update dt).temperature = (r.update_temperatur dt).temperature := rfl

lemma Reactor.update_temperatur_temperature (r : Reactor) (dt : ℚ) :
    (r.update_temperatur dt).temperature =
      F32.clamp
        (r.temperature +
          F32.clamp
            (F32.signum ((r.heat_supply - r.turbine.value * 100) - r.temperature) * 1000 * dt)
            (-|(r.heat_supply - r.turbine.value * 100) - r.temperature|)
            |(r.heat_supply - r.turbine.value * 100) - r.temperature|)
        0 10000 := rfl

/-! ### The rate-limited target step -/

/-- Shared analysis of the target update expression of `Core::update`
and `Turbine::update`: the new target stays between the old target and
`new_target`, and moves by at most `5 * dt`. -/
lemma targetStep_bounds (t nt dt : ℚ) (hdt : 0 ≤ dt) :
    min t nt ≤ (if t ≥ nt then max (t - dt * 5) nt else min (t + dt * 5) nt) ∧
      (if t ≥ nt then max (t - dt * 5) nt else min (t + dt * 5) nt) ≤ max t nt ∧
      |(if t ≥ nt then max (t - dt * 5) nt else min (t + dt * 5) nt) - t| ≤ 5 * dt := by
  rcases le_or_lt nt t with h | h
  · rw [if_pos h]
    have h1 : t - dt * 5 ≤ max (t - dt * 5) nt := le_max_left _ _
    have h2 : nt ≤ max (t - dt * 5) nt := le_max_right _ _
    have h3 : max (t - dt * 5) nt ≤ t := max_le (by linarith) h
    exact ⟨le_trans (min_le_right _ _) h2, le_trans h3 (le_max_left _ _),
      abs_le.mpr ⟨by linarith, by linarith⟩⟩
  · rw [if_neg (by exact not_le.mpr h)]
    have h1 : min (t + dt * 5) nt ≤ t + dt * 5 := min_le_left _ _
    have h2 : min (t + dt * 5) nt ≤ nt := min_le_right _ _
    have h3 : t ≤ min (t + dt * 5) nt := le_min (by linarith) (le_of_lt h)
    exact ⟨le_trans (min_le_left _ _) h3, le_trans h2 (le_max_right _ _),
      abs_le.mpr ⟨by linarith, by linarith⟩⟩

/-- Bounds of a `Core::update` call when the old target and the new
target are both in [0,100]. -/
lemma core_update_bounds {c : Core} {nt dt : ℚ} (hdt : 0 ≤ dt)
    (h0 : 0 ≤ c.target) (h1 : c.target ≤ 100) (hn0 : 0 ≤ nt) (hn1 : nt ≤ 100) :
    0 ≤ (c.update nt dt).value ∧ (c.update nt dt).value ≤ 100 ∧
      0 ≤ (c.update nt dt).target ∧ (c.update nt dt).target ≤ 100 := by
  obtain ⟨hmin, hmax, -⟩ := targetStep_bounds c.target nt dt hdt
  rw [← core_update_target c nt dt] at hmin hmax
  refine ⟨?_, ?_, le_trans (le_min h0 hn0) hmin, le_trans hmax (max_le h1 hn1)⟩
  · rw [core_update_value]; exact F32.le_clamp _ (by norm_num)
  · rw [core_update_value]; exact F32.clamp_le _ _ _

/-- Bounds of a `Turbine::update` call when the old target and the new
target are both in [0,100]. -/
lemma turbine_update_bounds {t : Turbine} {nt dt : ℚ} (hdt : 0 ≤ dt)
    (h0 : 0 ≤ t.target) (h1 : t.target ≤ 100) (hn0 : 0 ≤ nt) (hn1 : nt ≤ 100) :
    0 ≤ (t.update nt dt).value ∧ (t.update nt dt).value ≤ 100 ∧
      0 ≤ (t.update nt dt).target ∧ (t.update nt dt).target ≤ 100 := by
  obtain ⟨hmin, hmax, -⟩ := targetStep_bounds t.target nt dt hdt
  rw [← turbine_update_target t nt dt] at hmin hmax
  refine ⟨?_, ?_, le_trans (le_min h0 hn0) hmin, le_trans hmax (max_le h1 hn1)⟩
  · rw [turbine_update_value]; exact F32.le_clamp _ (by norm_num)
  · rw [turbine_update_value]; exact F32.clamp_le _ _ _

/-! ### Reachable reactor states and the global invariant -/

/-- All three `Input` fields lie in [0,100]. -/
def Input.InRange (i : Input) : Prop :=
  0 ≤ i.fission_rate ∧ i.fission_rate ≤ 100 ∧
    0 ≤ i.turbine_rate ∧ i.turbine_rate ≤ 100 ∧
    0 ≤ i.load ∧ i.load ≤ 100

/-- The physical-state invariant of a reactor: core and turbine value
and target in [0,100], temperature in [0,10000], input fields in
[0,100]. -/
def Reactor.Inv (r : Reactor) : Prop :=
  Input.InRange r.input ∧
    0 ≤ r.core.value ∧ r.core.value ≤ 100 ∧
    0 ≤ r.core.target ∧ r.core.target ≤ 100 ∧
    0 ≤ r.turbine.value ∧ r.turbine.value ≤ 100 ∧
    0 ≤ r.turbine.target ∧ r.turbine.target ≤ 100 ∧
    0 ≤ r.temperature ∧ r.temperature ≤ 10000

instance (i : Input) : Decidable i.InRange := by unfold Input.InRange; infer_instance

instance (r : Reactor) : Decidable r.Inv := by unfold Reactor.Inv; infer_instance

/-- Reactor states reachable from `Reactor::new` by `Reactor::update`
calls with `dt ≥ 0` and by `Input` setter calls (through
`get_input_mut`/`controls`). -/
inductive Reachable : Reactor → Prop
  | new (fuel_potential power_max : ℚ) : Reachable (Reactor.new fuel_potential power_max)
  | update (r : Reactor) (dt : ℚ) (hdt : 0 ≤ dt) (h : Reachable r) : Reachable (r.update dt)
  | set_fission_rate (r : Reactor) (x : ℚ) (h : Reachable r) :
      Reachable { r with input := r.input.set_fission_rate x }
  | set_turbine_rate (r : Reactor) (x : ℚ) (h : Reachable r) :
      Reachable { r with input := r.input.set_turbine_rate x }
  | set_load (r : Reactor) (x : ℚ) (h : Reachable r) :
      Reachable { r with input := r.input.set_load x }

/-- The invariant holds at every reachable state. -/
lemma Reachable.inv {r : Reactor} (h : Reachable r) : r.Inv := by
  induction h with
  | new fuel_potential power_max =>
    refine ⟨⟨?_, ?_, ?_, ?_, ?_, ?_⟩, ?_, ?_, ?_, ?_, ?_, ?_, ?_, ?_, ?_, ?_⟩ <;> norm_num [Reactor.new, Input.new, Core.new, Turbine.new]
  | update r dt hdt h ih =>
    obtain ⟨⟨hf0, hf1, ht0, ht1, hl0, hl1⟩, hcv0, hcv1, hct0, hct1, htv0, htv1, htt0, htt1, htp0, htp1⟩ := ih
    obtain ⟨c0, c1, c2, c3⟩ := core_update_bounds (c := r.core) hdt hct0 hct1 hf0 hf1
    obtain ⟨t0, t1, t2, t3⟩ := turbine_update_bounds (t := r.turbine) hdt htt0 htt1 ht0 ht1
    refine ⟨?_, ?_, ?_, ?_, ?_, ?_, ?_, ?_, ?_, ?_, ?_⟩
    · rw [Reactor.update_input]; exact ⟨hf0, hf1, ht0, ht1, hl0, hl1⟩
    · rw [Reactor.update_core]; exact c0
    · rw [Reactor.update_core]; exact c1
    · rw [Reactor.update_core]; exact c2
    · rw [Reactor.update_core]; exact c3
    · rw [Reactor.update_turbine]; exact t0
    · rw [Reactor.update_turbine]; exact t1
    · rw [Reactor.update_turbine]; exact t2
    · rw [Reactor.update_turbine]; exact t3
    · rw [Reactor.update_temperature, Reactor.update_temperatur_temperature]
      exact F32.le_clamp _ (by norm_num)
    · rw [Reactor.update_temperature, Reactor.update_temperatur_temperature]
      exact F32.clamp_le _ _ _
  | set_fission_rate r x h ih =>
    obtain ⟨⟨-, -, ht0, ht1, hl0, hl1⟩, hrest⟩ := ih
    exact ⟨⟨F32.le_clamp _ (by norm_num), F32.clamp_le _ _ _, ht0, ht1, hl0, hl1⟩, hrest⟩
  | set_turbine_rate r x h ih =>
    obtain ⟨⟨hf0, hf1, -, -, hl0, hl1⟩, hrest⟩ := ih
    exact ⟨⟨hf0, hf1, F32.le_clamp _ (by norm_num), F32.clamp_le _ _ _, hl0, hl1⟩, hrest⟩
  | set_load r x h ih =>
    obtain ⟨⟨hf0, hf1, ht0, ht1, -, -⟩, hrest⟩ := ih
    exact ⟨⟨hf0, hf1, ht0, ht1, F32.le_clamp _ (by norm_num), F32.clamp_le _ _ _⟩, hrest⟩

/-- Claim C1: for every reachable Reactor state (from `Reactor::new`,
under `Reactor::update` calls with `dt ≥ 0` and arbitrary `Input` setter
calls), `Core.value`, `Core.target`, `Turbine.value` and
`Turbine.target` stay in [0,100] and the temperature stays in
[0,10000]. -/
theorem C1_bounds_invariant (r : Reactor) (h : Reachable r) :
    0 ≤ r.core.value ∧ r.core.value ≤ 100 ∧
      0 ≤ r.core.target ∧ r.core.target ≤ 100 ∧
      0 ≤ r.turbine.value ∧ r.turbine.value ≤ 100 ∧
      0 ≤ r.turbine.target ∧ r.turbine.target ≤ 100 ∧
      0 ≤ r.temperature ∧ r.temperature ≤ 10000 :=
  h.inv.2

/-- Witness for C1 at the concrete reachable state obtained from
`Reactor::new(160, 4000)` by `set_fission_rate(250)` and one update with
`dt = 1`. -/
theorem C1_bounds_invariant_witness :
    0 ≤ (Reactor.update { Reactor.new 160 4000 with
          input := (Reactor.new 160 4000).input.set_fission_rate 250 } 1).core.value ∧
      (Reactor.update { Reactor.new 160 4000 with
          input := (Reactor.new 160 4000).input.set_fission_rate 250 } 1).core.value ≤ 100 ∧
      0 ≤ (Reactor.update { Reactor.new 160 4000 with
          input := (Reactor.new 160 4000).input.set_fission_rate 250 } 1).core.target ∧
      (Reactor.update { Reactor.new 160 4000 with
          input := (Reactor.new 160 4000).input.set_fission_rate 250 } 1).core.target ≤ 100 ∧
      0 ≤ (Reactor.update { Reactor.new 160 4000 with
          input := (Reactor.new 160 4000).input.set_fission_rate 250 } 1).turbine.value ∧
      (Reactor.update { Reactor.new 160 4000 with
          input := (Reactor.new 160 4000).input.set_fission_rate 250 } 1).turbine.value ≤ 100 ∧
      0 ≤ (Reactor.update { Reactor.new 160 4000 with
          input := (Reactor.new 160 4000).input.set_fission_rate 250 } 1).turbine.target ∧
      (Reactor.update { Reactor.new 160 4000 with
          input := (Reactor.new 160 4000).input.set_fission_rate 250 } 1).turbine.target ≤ 100 ∧
      0 ≤ (Reactor.update { Reactor.new 160 4000 with
          input := (Reactor.new 160 4000).input.set_fission_rate 250 } 1).temperature ∧
      (Reactor.update { Reactor.new 160 4000 with
          input := (Reactor.new 160 4000).input.set_fission_rate 250 } 1).temperature ≤ 10000 :=
  C1_bounds_invariant _
    (Reachable.update _ 1 (by norm_num)
      (Reachable.set_fission_rate _ 250 (Reachable.new 160 4000)))

/-! ### Sequences of Input setter calls (for claim C2) -/

/-- One call of an `Input` setter. -/
inductive InputCall
  | set_fission_rate (x : ℚ)
  | set_turbine_rate (x : ℚ)
  | set_load (x : ℚ)

/-- Apply one `Input` setter call. -/
def applyInputCall (i : Input) : InputCall → Input
  | InputCall.set_fission_rate x => i.set_fission_rate x
  | InputCall.set_turbine_rate x => i.set_turbine_rate x
  | InputCall.set_load x => i.set_load x

/-- Apply a sequence of `Input` setter calls, first call first. -/
def applyInputCalls (i : Input) (calls : List InputCall) : Input :=
  calls.foldl applyInputCall i

lemma applyInputCall_inRange {i : Input} (h : i.InRange) (c : InputCall) :
    (applyInputCall i c).InRange := by
  obtain ⟨hf0, hf1, ht0, ht1, hl0, hl1⟩ := h
  cases c with
  | set_fission_rate x =>
    exact ⟨F32.le_clamp _ (by norm_num), F32.clamp_le _ _ _, ht0, ht1, hl0, hl1⟩
  | set_turbine_rate x =>
    exact ⟨hf0, hf1, F32.le_clamp _ (by norm_num), F32.clamp_le _ _ _, hl0, hl1⟩
  | set_load x =>
    exact ⟨hf0, hf1, ht0, ht1, F32.le_clamp _ (by norm_num), F32.clamp_le _ _ _⟩

lemma applyInputCalls_inRange {i : Input} (h : i.InRange) (calls : List InputCall) :
    (applyInputCalls i calls).InRange := by
  induction calls generalizing i with
  | nil => exact h
  | cons c cs ih => exact ih (applyInputCall_inRange h c)

/-- Counterexample to claim C2 as stated: `Reactor::set_load(150)`
stores `150`, which is not in [0,100]. -/
theorem C2_clamp_counterexample :
    ¬ (((Reactor.new 160 4000).set_load 150).load ≤ 100) := by
  show ¬ (max (150 : ℚ) 0 ≤ 100)
  norm_num

/-- Claim C2 (amended): every sequence of `Input` setter calls starting
from an in-range `Input` keeps all three stored fields in [0,100], and
`Reactor::set_fission_rate`/`set_turbine_rate` store clamped values in
[0,100]; but `Reactor::set_load` stores `max(x, 0)`, so only the lower
bound 0 holds for the reactor's own `load` field. -/
theorem C2_clamp_amended (calls : List InputCall) (i : Input) (hi : i.InRange)
    (r : Reactor) (x : ℚ) :
    (applyInputCalls i calls).InRange ∧
      (0 ≤ (r.set_fission_rate x).input.fission_rate ∧
        (r.set_fission_rate x).input.fission_rate ≤ 100) ∧
      (0 ≤ (r.set_turbine_rate x).input.turbine_rate ∧
        (r.set_turbine_rate x).input.turbine_rate ≤ 100) ∧
      0 ≤ (r.set_load x).load :=
  ⟨applyInputCalls_inRange hi calls,
    ⟨F32.le_clamp _ (by norm_num), F32.clamp_le _ _ _⟩,
    ⟨F32.le_clamp _ (by norm_num), F32.clamp_le _ _ _⟩,
    le_max_right _ _⟩

/-- Witness for the amended C2: a concrete call sequence on
`Input::new` (which is in range). -/
theorem C2_clamp_amended_witness :
    Input.InRange Input.new ∧
      ((applyInputCalls Input.new
          [InputCall.set_fission_rate 250, InputCall.set_load (-3)]).InRange ∧
        (0 ≤ ((Reactor.new 160 4000).set_fission_rate (-7)).input.fission_rate ∧
          ((Reactor.new 160 4000).set_fission_rate (-7)).input.fission_rate ≤ 100) ∧
        (0 ≤ ((Reactor.new 160 4000).set_turbine_rate 300).input.turbine_rate ∧
          ((Reactor.new 160 4000).set_turbine_rate 300).input.turbine_rate ≤ 100) ∧
        0 ≤ ((Reactor.new 160 4000).set_load 150).load) :=
  ⟨by decide,
    C2_clamp_amended [InputCall.set_fission_rate 250, InputCall.set_load (-3)]
      Input.new (by decide) (Reactor.new 160 4000) _⟩

/-! ### Claim C3: rate limit of a single Core/Turbine update -/

/-- Claim C3: for a single `Core::update` or `Turbine::update` with
`dt ≥ 0`, the target moves by at most `5*dt` and ends between the old
target and `new_target` (monotone approach, no overshoot). -/
theorem C3_target_rate_limit (c : Core) (t : Turbine) (new_target dt : ℚ)
    (hdt : 0 ≤ dt) :
    (|(c.update new_target dt).target - c.target| ≤ 5 * dt ∧
      min c.target new_target ≤ (c.update new_target dt).target ∧
      (c.update new_target dt).target ≤ max c.target new_target) ∧
      (|(t.update new_target dt).target - t.target| ≤ 5 * dt ∧
        min t.target new_target ≤ (t.update new_target dt).target ∧
        (t.update new_target dt).target ≤ max t.target new_target) := by
  obtain ⟨h1, h2, h3⟩ := targetStep_bounds c.target new_target dt hdt
  obtain ⟨h4, h5, h6⟩ := targetStep_bounds t.target new_target dt hdt
  rw [core_update_target, turbine_update_target]
  exact ⟨⟨h3, h1, h2⟩, h6, h4, h5⟩

/-- Witness for C3 at `Core { value 0, target 10 }`,
`Turbine { value 0, target 90 }`, `new_target = 50`, `dt = 1`. -/
theorem C3_target_rate_limit_witness :
    (0 : ℚ) ≤ 1 ∧
      ((|((Core.mk 0 10).update 50 1).target - (Core.mk 0 10).target| ≤ 5 * 1 ∧
        min (Core.mk 0 10).target 50 ≤ ((Core.mk 0 10).update 50 1).target ∧
        ((Core.mk 0 10).update 50 1).target ≤ max (Core.mk 0 10).target 50) ∧
        (|((Turbine.mk 0 90).update 50 1).target - (Turbine.mk 0 90).target| ≤ 5 * 1 ∧
          min (Turbine.mk 0 90).target 50 ≤ ((Turbine.mk 0 90).update 50 1).target ∧
          ((Turbine.mk 0 90).update 50 1).target ≤ max (Turbine.mk 0 90).target 50)) :=
  ⟨by norm_num, C3_target_rate_limit (Core.mk 0 10) (Turbine.mk 0 90) 50 1 (by norm_num)⟩

/-! ### Claim C10: Reactor::set_load frame conditions -/

/-- Claim C10: `Reactor::set_load(x)` stores `max(x, 0)` in the
Reactor's own `load` field (no upper clamp, so values above 100 are
stored unchanged), leaving `Input`, the sub-models, the temperature and
the `Output` untouched; and `Reactor::update` never reads the reactor's
`load` field. -/
theorem C10_set_load_frame (r : Reactor) (x l dt : ℚ) :
    (r.set_load x).load = max x 0 ∧
      (r.set_load x).input = r.input ∧
      (r.set_load x).core = r.core ∧
      (r.set_load x).turbine = r.turbine ∧
      (r.set_load x).temperature = r.temperature ∧
      (r.set_load x).output = r.output ∧
      (r.set_load x).fuel_potential = r.fuel_potential ∧
      (r.set_load x).power_max = r.power_max ∧
      ({ r with load := l } : Reactor).update dt = { r.update dt with load := l } :=
  ⟨rfl, rfl, rfl, rfl, rfl, rfl, rfl, rfl, rfl⟩

/-! ### Claim C4: order of the update steps -/

/-- Claim C4: `Reactor::update(dt)` is exactly the spec-side
composition: temperature recomputed from the pre-update Core/Turbine
values first, then Core advances toward `input.fission_rate`, then
Turbine advances toward `input.turbine_rate`, then the Output echo
fields are refreshed — the one-tick lag is visible in the second
conjunct: the post-update temperature is the one computed by
`update_temperatur` on the pre-update state. -/
theorem C4_update_order (r : Reactor) (dt : ℚ) :
    r.update dt = specReactorUpdate r dt ∧
      (r.update dt).temperature = (r.update_temperatur dt).temperature :=
  ⟨rfl, rfl⟩

/-! ### Claim C5: Output refresh (corrected: power is never written) -/

/-- A reactor mid-run: as `Reactor::new(160, 4000)` but with the
turbine spinning at 100. -/
def spinningReactor : Reactor :=
  { Reactor.new 160 4000 with turbine := Turbine.mk 100 100 }

/-- Counterexample to claim C5 as stated: after one update of a reactor
whose turbine is running, the delivered-power field of `Output` is not
the power recomputed from the current state (`Reactor::update` never
writes `output.power`). -/
theorem C5_output_power_counterexample :
    ¬ ((spinningReactor.update 1).output.power = (spinningReactor.update 1).get_power) := by
  have h1 : (spinningReactor.update 1).output.power = 0 := rfl
  have h2 : (spinningReactor.update 1).get_power = 3800 := by
    show ((Turbine.mk 100 100).update 0 1).value * 4000 / 100 = 3800
    rw [turbine_update_value, turbine_update_target]
    norm_num [F32.clamp, max_def, min_def]
  rw [h1, h2]
  norm_num

/-- Claim C5 (amended): `Reactor::update` recomputes the temperature,
load, fuel-potential, fission-rate and turbine-rate fields of `Output`
from the current reactor state each tick, and controllers cannot mutate
`Output`; but the delivered-power field is never written by `update` —
it keeps its previous value (the initial 0). -/
theorem C5_output_refresh_amended (r : Reactor) (dt : ℚ) :
    (r.update dt).output.temperature = (r.update dt).temperature ∧
      (r.update dt).output.load = (r.update dt).input.load ∧
      (r.update dt).output.fuel_potential = (r.update dt).fuel_potential ∧
      (r.update dt).output.fission_rate = (r.update dt).core.value ∧
      (r.update dt).output.turbine_rate = (r.update dt).turbine.value ∧
      (r.update dt).output.power = r.output.power :=
  ⟨rfl, rfl, rfl, rfl, rfl, rfl⟩

/-! ### Claim C6: controller composition -/

/-- Claim C6: one tick of the pair composition `(A, B)` equals running
A's update and then B's update on the same `Output`, with B seeing the
`Input` exactly as A left it; and the empty composition `()` is a no-op
on the `Input` and on its (trivial) state. -/
theorem C6_controller_composition {α β : Type} (a : ControllerFn α) (b : ControllerFn β)
    (sa : α) (sb : β) (output : Output) (input : Input) :
    tupleController a b (sa, sb) output input =
      ((((a sa output input).1, (b sb output (a sa output input).2).1),
        (b sb output (a sa output input).2).2)) ∧
      unitController () output input = ((), input) :=
  ⟨rfl, rfl⟩

/-! ### Claim C7: overshoot-free temperature pursuit -/

/-- The clamp of a value to an interval containing `T` does not move it
further from `T`. -/
lemma abs_clamp_sub_le {lo hi T : ℚ} (u : ℚ) (h0 : lo ≤ T) (h1 : T ≤ hi) :
    |F32.clamp u lo hi - T| ≤ |u - T| := by
  rcases le_total u lo with h | h
  · rw [F32.clamp, max_eq_right h, min_eq_left (h0.trans h1),
      abs_of_nonpos (by linarith), abs_of_nonpos (by linarith)]
    linarith
  · rcases le_total u hi with h' | h'
    · rw [F32.clamp, max_eq_left h, min_eq_left h']
    · rw [F32.clamp, max_eq_left h, min_eq_right h',
        abs_of_nonneg (by linarith), abs_of_nonneg (by linarith)]
      linarith

/-- Full analysis of the temperature step on values: the change is
bounded by `|d|` and the result stays between the old temperature `T`
and the instantaneous target `T + d`. -/
lemma tempStep_bounds (T d dt : ℚ) (hdt : 0 ≤ dt) (h0 : 0 ≤ T) (h1 : T ≤ 10000) :
    |F32.clamp (T + F32.clamp (F32.signum d * 1000 * dt) (-|d|) |d|) 0 10000 - T| ≤ |d| ∧
      min T (T + d) ≤
        F32.clamp (T + F32.clamp (F32.signum d * 1000 * dt) (-|d|) |d|) 0 10000 ∧
      F32.clamp (T + F32.clamp (F32.signum d * 1000 * dt) (-|d|) |d|) 0 10000 ≤
        max T (T + d) := by
  set s := F32.clamp (F32.signum d * 1000 * dt) (-|d|) |d| with hsdef
  have habs : |s| ≤ |d| := F32.abs_clamp_le _ (abs_nonneg d)
  have hcases : (0 ≤ d ∧ 0 ≤ s ∧ s ≤ d) ∨ (d < 0 ∧ d ≤ s ∧ s ≤ 0) := by
    rcases lt_or_le d 0 with hd | hd
    · refine Or.inr ⟨hd, ?_, ?_⟩
      · have hlo : -|d| = d := by rw [abs_of_neg hd]; ring
        rw [hsdef]
        calc d = -|d| := hlo.symm
          _ ≤ F32.clamp (F32.signum d * 1000 * dt) (-|d|) |d| :=
            F32.le_clamp _ (by linarith [abs_nonneg d])
      · rw [hsdef, F32.clamp]
        refine le_trans (min_le_left _ _) (max_le ?_ ?_)
        · rw [F32.signum, if_pos hd]; linarith
        · linarith [abs_nonneg d]
    · refine Or.inl ⟨hd, ?_, ?_⟩
      · rw [hsdef, F32.clamp]
        refine le_min (le_trans ?_ (le_max_left _ _)) (abs_nonneg d)
        rw [F32.signum, if_neg (not_lt.mpr hd)]
        linarith
      · rw [hsdef]
        exact le_trans (F32.clamp_le _ _ _) (le_of_eq (abs_of_nonneg hd))
  refine ⟨?_, ?_, ?_⟩
  · calc |F32.clamp (T + s) 0 10000 - T| ≤ |T + s - T| := abs_clamp_sub_le _ h0 h1
      _ = |s| := by rw [add_sub_cancel_left]
      _ ≤ |d| := habs
  · rw [F32.clamp]
    refine le_min ?_ (le_trans (min_le_left _ _) h1)
    refine le_trans ?_ (le_max_left (T + s) 0)
    rcases hcases with ⟨hd, hs0, hs1⟩ | ⟨hd, hs0, hs1⟩
    · exact le_trans (min_le_left _ _) (by linarith)
    · exact le_trans (min_le_right _ _) (by linarith)
  · rw [F32.clamp]
    refine le_trans (min_le_left _ _) (max_le ?_ (le_trans h0 (le_max_left _ _)))
    rcases hcases with ⟨hd, hs0, hs1⟩ | ⟨hd, hs0, hs1⟩
    · exact le_trans (by linarith) (le_max_right T (T + d))
    · exact le_trans (by linarith) (le_max_left T (T + d))

/-- Claim C7: for one temperature-update step with `dt ≥ 0` from a
temperature within its operating range, the temperature change never
exceeds the pre-update gap
`|(heat_supply - turbine.value*100) - temperature|` in magnitude, and
the temperature never moves past the instantaneous target within the
tick. -/
theorem C7_no_overshoot (r : Reactor) (dt : ℚ) (hdt : 0 ≤ dt)
    (h0 : 0 ≤ r.temperature) (h1 : r.temperature ≤ 10000) :
    |(r.update_temperatur dt).temperature - r.temperature| ≤
        |(r.heat_supply - r.turbine.value * 100) - r.temperature| ∧
      min r.temperature (r.heat_supply - r.turbine.value * 100) ≤
        (r.update_temperatur dt).temperature ∧
      (r.update_temperatur dt).temperature ≤
        max r.temperature (r.heat_supply - r.turbine.value * 100) := by
  have h := tempStep_bounds r.temperature
    ((r.heat_supply - r.turbine.value * 100) - r.temperature) dt hdt h0 h1
  have e : r.temperature + ((r.heat_supply - r.turbine.value * 100) - r.temperature) =
      r.heat_supply - r.turbine.value * 100 := by ring
  rw [e] at h
  rw [Reactor.update_temperatur_temperature]
  exact h

/-- A reactor mid-run: as `Reactor::new(160, 4000)` but with the core
at 50, the turbine at 20 and the temperature at 1000. -/
def warmReactor : Reactor :=
  { Reactor.new 160 4000 with
    core := Core.mk 50 50,
    turbine := Turbine.mk 20 20,
    temperature := 1000 }

/-- Witness for C7 at the concrete mid-run state `warmReactor` with
`dt = 1`. -/
theorem C7_no_overshoot_witness :
    (0 : ℚ) ≤ 1 ∧ 0 ≤ warmReactor.temperature ∧ warmReactor.temperature ≤ 10000 ∧
      (|(warmReactor.update_temperatur 1).temperature - warmReactor.temperature| ≤
          |(warmReactor.heat_supply - warmReactor.turbine.value * 100) -
            warmReactor.temperature| ∧
        min warmReactor.temperature
            (warmReactor.heat_supply - warmReactor.turbine.value * 100) ≤
          (warmReactor.update_temperatur 1).temperature ∧
        (warmReactor.update_temperatur 1).temperature ≤
          max warmReactor.temperature
            (warmReactor.heat_supply - warmReactor.turbine.value * 100)) :=
  ⟨by norm_num, by norm_num [warmReactor, Reactor.new],
    by norm_num [warmReactor, Reactor.new],
    C7_no_overshoot warmReactor 1 (by norm_num)
      (by norm_num [warmReactor, Reactor.new]) (by norm_num [warmReactor, Reactor.new])⟩

/-! ### Claim C8: simulation driver contract -/

/-- The driver loop is the `ticks`-fold iteration of the spec-side
single-tick step. -/
lemma runLoop_eq_iterate {σ : Type} (c : ControllerFn σ) (n : ℕ) (r : Reactor) (s : σ) :
    runLoop c n r s = (specTick c)^[n] (r, s) := by
  induction n generalizing r s with
  | zero => rfl
  | succ n ih =>
    rw [Function.iterate_succ_apply]
    exact ih (specTick c (r, s)).1 (specTick c (r, s)).2

/-- Claim C8: a Simulation built from a duration executes exactly
`duration_in_seconds * 60` iterations; each iteration hands the
reactor's current (Input, Output) pair to the controller, then advances
the reactor by `dt = 1/60`; `run()` returns the controller. -/
theorem C8_simulation_driver {σ : Type} (duration_secs : ℕ) (r : Reactor) (s : σ)
    (c : ControllerFn σ) :
    (Simulation.new duration_secs r s).ticks = duration_secs * 60 ∧
      (Simulation.new duration_secs r s).run c =
        ((specTick c)^[duration_secs * 60] (r, s)).2 := by
  refine ⟨rfl, ?_⟩
  show (runLoop c (duration_secs * 60) r s).2 = _
  rw [runLoop_eq_iterate]

/-! ### Claim C9: cold start stays cold -/

/-- The state a cold `Reactor::new(160, 4000)` settles into after its
first update: identical except that `output.fuel_potential` now echoes
160. -/
def coldSteady : Reactor :=
  { Reactor.new 160 4000 with output := { Output.new with fuel_potential := 160 } }

lemma cold_first_step :
    (Reactor.new 160 4000).update (1 / 60) = coldSteady := by
  simp only [Reactor.update, Reactor.update_temperatur, Core.update, Turbine.update,
    Reactor.new, Input.new, Core.new, Turbine.new, Output.new, Reactor.heat_supply,
    Reactor.get_fission_rate, Reactor.get_turbine_rate, Input.get_load,
    F32.clamp, F32.signum, coldSteady]
  norm_num

lemma cold_steady_fix : coldSteady.update (1 / 60) = coldSteady := by
  simp only [Reactor.update, Reactor.update_temperatur, Core.update, Turbine.update,
    Reactor.new, Input.new, Core.new, Turbine.new, Output.new, Reactor.heat_supply,
    Reactor.get_fission_rate, Reactor.get_turbine_rate, Input.get_load,
    F32.clamp, F32.signum, coldSteady]
  norm_num

lemma cold_iterate_succ (n : ℕ) :
    (fun r => Reactor.update r (1 / 60))^[n + 1] (Reactor.new 160 4000) = coldSteady := by
  induction n with
  | zero =>
    rw [Function.iterate_one]
    exact cold_first_step
  | succ n ih =>
    rw [Function.iterate_succ_apply', ih]
    exact cold_steady_fix

/-- Claim C9: starting from `Reactor::new(160, 4000)` with the all-zero
default Input, after each of the first 600 updates at `dt = 1/60` the
core value, the turbine value and the temperature are all exactly 0. -/
theorem C9_cold_start (n : ℕ) (hn : n ≤ 600) :
    ((fun r => Reactor.update r (1 / 60))^[n] (Reactor.new 160 4000)).core.value = 0 ∧
      ((fun r => Reactor.update r (1 / 60))^[n] (Reactor.new 160 4000)).turbine.value = 0 ∧
      ((fun r => Reactor.update r (1 / 60))^[n] (Reactor.new 160 4000)).temperature = 0 := by
  cases n with
  | zero => exact ⟨rfl, rfl, rfl⟩
  | succ n => rw [cold_iterate_succ]; exact ⟨rfl, rfl, rfl⟩

/-- Witness for C9 after the full 600 ticks. -/
theorem C9_cold_start_witness :
    ((fun r => Reactor.update r (1 / 60))^[600] (Reactor.new 160 4000)).core.value = 0 ∧
      ((fun r => Reactor.update r (1 / 60))^[600] (Reactor.new 160 4000)).turbine.value = 0 ∧
      ((fun r => Reactor.update r (1 / 60))^[600] (Reactor.new 160 4000)).temperature = 0 :=
  C9_cold_start 600 (by norm_num)

end BarotraumaReactor
